import Mathlib

set_option maxRecDepth 8000

/-!
Verification of the BatPU-2 CPU emulator (`src/simulator.py`) against its
natural-language specification.  The Python class `BatPU2` is shallowly
embedded: its mutable object state becomes the structure `BatPU2.CPUState`,
each method becomes a pure function on that state, and the ambient global
random source consumed by `random.randint(0, 255)` in `_read_port` becomes an
explicit byte stream `f : Nat → Nat` together with a consumption counter
`rngUses` stored in the state.
-/

namespace BatPU2

/-- The decoded-instruction record returned by `BatPU2.decode`. -/
structure Decoded where
  opcode : Nat
  reg_a : Nat
  reg_b : Nat
  reg_c : Nat
  imm8 : Nat
  imm8_signed : Int
  imm10 : Nat
  condition : Nat
  offset : Int
deriving DecidableEq

/-- `BatPU2.decode`: field extraction from a 16-bit instruction word, with the
4-bit `offset` and the 8-bit `imm8` sign-extended exactly as in the source. -/
def decode (instruction : Nat) : Decoded :=
  let imm8 := instruction &&& 0xFF
  let offset0 := instruction &&& 0xF
  { opcode := (instruction >>> 12) &&& 0xF
    reg_a := (instruction >>> 8) &&& 0xF
    reg_b := (instruction >>> 4) &&& 0xF
    reg_c := instruction &&& 0xF
    imm8 := imm8
    imm8_signed := if imm8 < 128 then (imm8 : Int) else (imm8 : Int) - 256
    imm10 := instruction &&& 0x3FF
    condition := (instruction >>> 10) &&& 0x3
    offset := if 8 ≤ offset0 then (offset0 : Int) - 16 else (offset0 : Int) }

/-- The mutable state of a `BatPU2` object.  `rngUses` counts how many bytes
of the ambient random stream `_read_port` has consumed (the Python code calls
the global `random.randint`, which this embedding models as indexing an
explicit stream). -/
structure CPUState where
  registers : List Nat
  memory : List Nat
  program : List Nat
  pc : Nat
  zero_flag : Bool
  carry_flag : Bool
  call_stack : List Nat
  halted : Bool
  instruction_count : Nat
  screen : List (List Nat)
  pixel_x : Nat
  pixel_y : Nat
  char_buffer : List Char
  number_display : Option Int
  signed_mode : Bool
  rngUses : Nat
deriving DecidableEq

/-- `BatPU2.__init__` followed by loading the program `prog` (the loader only
fills `self.program`; all other fields keep their constructed values). -/
def initState (prog : List Nat) : CPUState :=
  { registers := List.replicate 16 0
    memory := List.replicate 256 0
    program := prog
    pc := 0
    zero_flag := false
    carry_flag := false
    call_stack := []
    halted := false
    instruction_count := 0
    screen := List.replicate 32 (List.replicate 32 0)
    pixel_x := 0
    pixel_y := 0
    char_buffer := []
    number_display := none
    signed_mode := false
    rngUses := 0 }

/-- `BatPU2.reset`: zeroes every field except the program image (the method
never touches `self.program`); the ambient random stream position is likewise
untouched. -/
def reset (s : CPUState) : CPUState :=
  { s with
    registers := List.replicate 16 0
    memory := List.replicate 256 0
    pc := 0
    zero_flag := false
    carry_flag := false
    call_stack := []
    halted := false
    instruction_count := 0
    screen := List.replicate 32 (List.replicate 32 0)
    pixel_x := 0
    pixel_y := 0
    char_buffer := []
    number_display := none
    signed_mode := false }

/-- The character table materialized inside `_write_port` for port 7. -/
def batpuChars : List Char :=
  [' ', 'a', 'b', 'c', 'd', 'e', 'f', 'g', 'h', 'i', 'j', 'k', 'l', 'm',
   'n', 'o', 'p', 'q', 'r', 's', 't', 'u', 'v', 'w', 'x', 'y', 'z', '.', '!', '?']

/-- `BatPU2._read_port`: returns the value read and the successor state (only
the rng port advances the stream position).  `random.randint(0, 255)` is
modelled as the next stream byte reduced mod 256. -/
def read_port (f : Nat → Nat) (s : CPUState) (port : Nat) : Nat × CPUState :=
  let port_name := port - 240
  if port_name = 4 then
    ((s.screen.getD (s.pixel_y % 32) []).getD (s.pixel_x % 32) 0, s)
  else if port_name = 14 then
    (f s.rngUses % 256, { s with rngUses := s.rngUses + 1 })
  else if port_name = 15 then
    (0, s)
  else
    (0, s)

/-- `BatPU2._write_port`. -/
def write_port (s : CPUState) (port value : Nat) : CPUState :=
  let port_name := port - 240
  if port_name = 0 then
    { s with pixel_x := value }
  else if port_name = 1 then
    { s with pixel_y := value }
  else if port_name = 2 then
    let x := s.pixel_x % 32
    let y := s.pixel_y % 32
    { s with screen := s.screen.set y ((s.screen.getD y []).set x 1) }
  else if port_name = 3 then
    let x := s.pixel_x % 32
    let y := s.pixel_y % 32
    { s with screen := s.screen.set y ((s.screen.getD y []).set x 0) }
  else if port_name = 7 then
    let c := if value < batpuChars.length then batpuChars.getD value ' '
             else if 32 ≤ value ∧ value ≤ 126 then Char.ofNat value
             else '?'
    { s with char_buffer := s.char_buffer ++ [c] }
  else if port_name = 10 then
    let nd : Int := if s.signed_mode ∧ 128 ≤ value then (value : Int) - 256 else (value : Int)
    { s with number_display := some nd }
  else if port_name = 11 then
    { s with number_display := none }
  else if port_name = 12 then
    { s with signed_mode := true }
  else if port_name = 13 then
    { s with signed_mode := false }
  else
    s

/-- The opcode dispatch of `BatPU2.execute_one` (source lines 142-250): from
the state after the initial `self.registers[0] = 0`, produce the updated state
and the next PC.  Opcode 1 (HLT) is handled by the caller because the Python
method returns early there; opcode 0 (NOP) and the unreachable default fall
through to the common commit.  The call-stack warnings are prints, hence
no-ops here. -/
def dispatch (f : Nat → Nat) (s : CPUState) (d : Decoded) (nextPc : Nat) :
    CPUState × Nat :=
  match d.opcode with
  | 2 =>
    let raw := s.registers.getD d.reg_a 0 + s.registers.getD d.reg_b 0
    let result := raw % 256
    let regs := if d.reg_c ≠ 0 then s.registers.set d.reg_c result else s.registers
    ({ s with carry_flag := decide (255 < raw)
              zero_flag := decide (result = 0)
              registers := regs }, nextPc)
  | 3 =>
    let raw : Int := (s.registers.getD d.reg_a 0 : Int) - (s.registers.getD d.reg_b 0 : Int)
    let result := (raw % 256).toNat
    let regs := if d.reg_c ≠ 0 then s.registers.set d.reg_c result else s.registers
    ({ s with carry_flag := decide (0 ≤ raw)
              zero_flag := decide (result = 0)
              registers := regs }, nextPc)
  | 4 =>
    let result := 255 - ((s.registers.getD d.reg_a 0 ||| s.registers.getD d.reg_b 0) % 256)
    let regs := if d.reg_c ≠ 0 then s.registers.set d.reg_c result else s.registers
    ({ s with zero_flag := decide (result = 0)
              registers := regs }, nextPc)
  | 5 =>
    let result := s.registers.getD d.reg_a 0 &&& s.registers.getD d.reg_b 0
    let regs := if d.reg_c ≠ 0 then s.registers.set d.reg_c result else s.registers
    ({ s with zero_flag := decide (result = 0)
              registers := regs }, nextPc)
  | 6 =>
    let result := s.registers.getD d.reg_a 0 ^^^ s.registers.getD d.reg_b 0
    let regs := if d.reg_c ≠ 0 then s.registers.set d.reg_c result else s.registers
    ({ s with zero_flag := decide (result = 0)
              registers := regs }, nextPc)
  | 7 =>
    let a := s.registers.getD d.reg_a 0
    let result := a >>> 1
    let regs := if d.reg_c ≠ 0 then s.registers.set d.reg_c result else s.registers
    ({ s with carry_flag := decide (a &&& 1 = 1)
              zero_flag := decide (result = 0)
              registers := regs }, nextPc)
  | 8 =>
    let regs := if d.reg_a ≠ 0 then s.registers.set d.reg_a d.imm8 else s.registers
    ({ s with registers := regs }, nextPc)
  | 9 =>
    let raw : Int := (s.registers.getD d.reg_a 0 : Int) + d.imm8_signed
    let result := (raw % 256).toNat
    let regs := if d.reg_a ≠ 0 then s.registers.set d.reg_a result else s.registers
    ({ s with carry_flag := decide (255 < raw ∨ raw < 0)
              zero_flag := decide (result = 0)
              registers := regs }, nextPc)
  | 10 => (s, d.imm10)
  | 11 =>
    let taken :=
      match d.condition with
      | 0 => s.zero_flag
      | 1 => !s.zero_flag
      | 2 => s.carry_flag
      | 3 => !s.carry_flag
      | _ => false
    (s, if taken then d.imm10 else nextPc)
  | 12 =>
    if s.call_stack.length < 16 then
      ({ s with call_stack := (s.pc + 1) :: s.call_stack }, d.imm10)
    else (s, nextPc)
  | 13 =>
    match s.call_stack with
    | r :: rest => ({ s with call_stack := rest }, r)
    | [] => (s, nextPc)
  | 14 =>
    let addr := (((s.registers.getD d.reg_b 0 : Int) + d.offset) % 256).toNat
    let vr := if 240 ≤ addr then read_port f s addr else (s.memory.getD addr 0, s)
    let regs := if d.reg_a ≠ 0 then vr.2.registers.set d.reg_a vr.1 else vr.2.registers
    ({ vr.2 with registers := regs }, nextPc)
  | 15 =>
    let addr := (((s.registers.getD d.reg_a 0 : Int) + d.offset) % 256).toNat
    let value := s.registers.getD d.reg_b 0
    (if 240 ≤ addr then write_port s addr value
     else { s with memory := s.memory.set addr value }, nextPc)
  | _ => (s, nextPc)

/-- The `self.registers[0] = 0` guard (source lines 138 and 254). -/
def zeroR0 (s : CPUState) : CPUState :=
  { s with registers := s.registers.set 0 0 }

/-- Body of `BatPU2.execute_one` after the fetch: zero register 0 (line 138),
return early on HLT (halting without committing PC or the counter), otherwise
dispatch and commit `pc = next_pc; instruction_count += 1; registers[0] = 0`. -/
def execInstr (f : Nat → Nat) (s0 : CPUState) (w : Nat) : CPUState × Bool :=
  let d := decode w
  let s := zeroR0 s0
  if d.opcode = 1 then
    ({ s with halted := true }, false)
  else
    let p := dispatch f s d (s.pc + 1)
    ({ p.1 with pc := p.2
                instruction_count := p.1.instruction_count + 1
                registers := p.1.registers.set 0 0 }, true)

/-- `BatPU2.execute_one`: early exit (setting `halted`) when already halted or
PC is past the program, otherwise fetch and execute. -/
def execute_one (f : Nat → Nat) (s : CPUState) : CPUState × Bool :=
  if s.halted ∨ s.program.length ≤ s.pc then ({ s with halted := true }, false)
  else execInstr f s (s.program.getD s.pc 0)

/-- Iterated `execute_one` (discarding the boolean), i.e. `n` calls of
`step()` in sequence. -/
def stepN (f : Nat → Nat) : Nat → CPUState → CPUState
  | 0, s => s
  | n + 1, s => stepN f n (execute_one f s).1

/-- The `while` loop of `BatPU2.run`: while `instruction_count < maxI`, call
`execute_one` and stop when it returns false.  `fuel` bounds the iteration
count; since every true-returning step increments `instruction_count` by one,
`maxI - instruction_count` is exact fuel for the source loop. -/
def runLoop (f : Nat → Nat) (maxI : Nat) : Nat → CPUState → CPUState
  | 0, s => s
  | fuel + 1, s =>
    if s.instruction_count < maxI then
      let r := execute_one f s
      if r.2 then runLoop f maxI fuel r.1 else r.1
    else s

/-- `BatPU2.run(max_instructions)`: the loop above, plus the final budget
check `instruction_count >= max_instructions` that triggers the "Stopped
after N instructions" report (returned here as the boolean). -/
def run (f : Nat → Nat) (maxI : Nat) (s : CPUState) : CPUState × Bool :=
  let t := runLoop f maxI (maxI - s.instruction_count) s
  (t, decide (maxI ≤ t.instruction_count))

/-- True iff the next `execute_one` from `s` would consult the random stream:
a non-halted in-range fetch of a LOD (opcode 14) whose effective address is
254 (port 14, the rng). -/
def consultsRng (s : CPUState) : Bool :=
  if s.halted ∨ s.program.length ≤ s.pc then false
  else
    let d := decode (s.program.getD s.pc 0)
    let addr := ((((s.registers.set 0 0).getD d.reg_b 0 : Int) + d.offset) % 256).toNat
    decide (d.opcode = 14 ∧ addr = 254)

/-- Every register cell and every data-memory cell is a byte. -/
def bytesOK (s : CPUState) : Prop :=
  (∀ x ∈ s.registers, x < 256) ∧ (∀ x ∈ s.memory, x < 256)

/-- Auxiliary strengthening: every framebuffer cell is a byte (the code only
ever stores 0 or 1 there), so that `load_pixel` reads are bytes. -/
def screenOK (s : CPUState) : Prop :=
  ∀ row ∈ s.screen, ∀ p ∈ row, p < 256

/-- The all-zero byte stream, used to instantiate the rng stream in concrete
executions that never read the rng port. -/
def zeroStream : Nat → Nat := fun _ => 0

/-! ### Concrete programs used by the scenario claims -/

/-- Scenario S4: `CAL 3; HLT; HLT; LDI r1, 42; RET` as 16-bit words. -/
def progCall : List Nat := [49155, 4096, 4096, 33066, 53248]

/-- Scenario S2: `LDI r1, 10; LDI r2, 20; SUB r1, r2, r3; HLT`. -/
def progSub : List Nat := [33034, 33300, 12579, 4096]

/-- A 1024-word program the `.mc` loader accepts: `JMP 1023` followed by 1023
`NOP`s, so that the word at address 1023 falls through to PC = 1024. -/
def progOverflowPc : List Nat := 41983 :: List.replicate 1023 0

/-- The one-word infinite loop `JMP 0`. -/
def progLoop : List Nat := [40960]

/-! ### Helper lemmas -/

lemma set_zero_of_getD {l : List Nat} (h : l.getD 0 0 = 0) : l.set 0 0 = l := by
  cases l with
  | nil => rfl
  | cons a t =>
    simp only [List.getD_cons_zero] at h
    simp [h]

lemma getD_set_zero (l : List Nat) : (l.set 0 0).getD 0 0 = 0 := by
  cases l <;> simp

lemma zeroR0_of_getD {s : CPUState} (h : s.registers.getD 0 0 = 0) : zeroR0 s = s := by
  unfold zeroR0
  rw [set_zero_of_getD h]

lemma getD_set_self {l : List Nat} {i v : Nat} (h : i < l.length) :
    (l.set i v).getD i 0 = v := by
  induction l generalizing i with
  | nil => simp at h
  | cons a t ih =>
    cases i with
    | zero => rfl
    | succ j => exact ih (by simpa using h)

lemma getD_set_ne {l : List Nat} {i j v : Nat} (h : i ≠ j) :
    (l.set i v).getD j 0 = l.getD j 0 := by
  induction l generalizing i j with
  | nil => rfl
  | cons a t ih =>
    cases i with
    | zero =>
      cases j with
      | zero => exact absurd rfl h
      | succ k => rfl
    | succ i0 =>
      cases j with
      | zero => rfl
      | succ k => exact ih (by omega)

lemma sub_emod_toNat (a b : Nat) (hb : b < 256) :
    (((a : Int) - b) % 256).toNat = (256 + a - b) % 256 := by
  omega

lemma emod256_toNat_lt (x : Int) : ((x % 256).toNat) < 256 := by
  have h1 : 0 ≤ x % 256 := Int.emod_nonneg x (by norm_num)
  have h2 : x % 256 < 256 := Int.emod_lt_of_pos x (by norm_num)
  omega

lemma read_port_frame (f : Nat → Nat) (s : CPUState) (p : Nat) :
    (read_port f s p).2.registers = s.registers ∧
    (read_port f s p).2.memory = s.memory ∧
    (read_port f s p).2.program = s.program ∧
    (read_port f s p).2.pc = s.pc ∧
    (read_port f s p).2.zero_flag = s.zero_flag ∧
    (read_port f s p).2.carry_flag = s.carry_flag ∧
    (read_port f s p).2.call_stack = s.call_stack ∧
    (read_port f s p).2.halted = s.halted ∧
    (read_port f s p).2.instruction_count = s.instruction_count ∧
    (read_port f s p).2.screen = s.screen := by
  unfold read_port
  dsimp only
  split_ifs <;> simp

lemma write_port_frame (s : CPUState) (p v : Nat) :
    (write_port s p v).registers = s.registers ∧
    (write_port s p v).memory = s.memory ∧
    (write_port s p v).program = s.program ∧
    (write_port s p v).pc = s.pc ∧
    (write_port s p v).zero_flag = s.zero_flag ∧
    (write_port s p v).carry_flag = s.carry_flag ∧
    (write_port s p v).call_stack = s.call_stack ∧
    (write_port s p v).halted = s.halted ∧
    (write_port s p v).instruction_count = s.instruction_count ∧
    (write_port s p v).rngUses = s.rngUses := by
  unfold write_port
  dsimp only
  split_ifs <;> simp

lemma dispatch_frame (f : Nat → Nat) (s : CPUState) (d : Decoded) (n : Nat) :
    (dispatch f s d n).1.program = s.program ∧
    (dispatch f s d n).1.instruction_count = s.instruction_count ∧
    (dispatch f s d n).1.halted = s.halted := by
  unfold dispatch
  split
  all_goals try dsimp only
  all_goals try (split_ifs <;> simp [read_port_frame, write_port_frame])
  all_goals try (split <;> simp)
  all_goals simp

lemma execute_one_program (f : Nat → Nat) (s : CPUState) :
    (execute_one f s).1.program = s.program := by
  unfold execute_one execInstr
  dsimp only
  split_ifs <;> simp [dispatch_frame, zeroR0]

lemma execute_one_count_of_true (f : Nat → Nat) (s : CPUState)
    (h : (execute_one f s).2 = true) :
    (execute_one f s).1.instruction_count = s.instruction_count + 1 := by
  unfold execute_one execInstr at h ⊢
  dsimp only at h ⊢
  split_ifs at h ⊢ <;> simp_all [dispatch_frame, zeroR0]

lemma execute_one_halted_of_false (f : Nat → Nat) (s : CPUState)
    (h : (execute_one f s).2 = false) :
    (execute_one f s).1.halted = true := by
  unfold execute_one execInstr at h ⊢
  dsimp only at h ⊢
  split_ifs at h ⊢ <;> simp_all

lemma runLoop_post (f : Nat → Nat) (m : Nat) :
    ∀ fuel s, m - s.instruction_count ≤ fuel →
      (runLoop f m fuel s).halted = true ∨ m ≤ (runLoop f m fuel s).instruction_count := by
  intro fuel
  induction fuel with
  | zero =>
    intro s h
    right
    simp only [runLoop]
    omega
  | succ n ih =>
    intro s h
    by_cases hc : s.instruction_count < m
    · rw [runLoop, if_pos hc]
      cases hb : (execute_one f s).2 with
      | false =>
        simp only [hb, if_neg]
        exact Or.inl (execute_one_halted_of_false f s hb)
      | true =>
        simp only [hb, if_pos]
        exact ih _ (by have := execute_one_count_of_true f s hb; omega)
    · rw [runLoop, if_neg hc]
      right
      omega

lemma execInstr_proj (f : Nat → Nat) (s : CPUState) (w : Nat)
    (h : ¬ (decode w).opcode = 1) :
    (execInstr f s w).1.carry_flag =
      (dispatch f (zeroR0 s) (decode w) (s.pc + 1)).1.carry_flag ∧
    (execInstr f s w).1.zero_flag =
      (dispatch f (zeroR0 s) (decode w) (s.pc + 1)).1.zero_flag ∧
    (execInstr f s w).1.registers =
      (dispatch f (zeroR0 s) (decode w) (s.pc + 1)).1.registers.set 0 0 ∧
    (execInstr f s w).2 = true := by
  simp only [execInstr]
  rw [if_neg h]
  exact ⟨rfl, rfl, rfl, rfl⟩

lemma getD_prop {α : Type} {P : α → Prop} (l : List α) (d : α) (hd : P d) :
    (∀ x ∈ l, P x) → ∀ n, P (l.getD n d) := by
  induction l with
  | nil => exact fun _ _ => hd
  | cons a t ih =>
    intro hl n
    cases n with
    | zero => exact hl a (List.mem_cons_self a t)
    | succ m => exact ih (fun x hx => hl x (List.mem_cons_of_mem a hx)) m

lemma mem_set_prop {α : Type} {P : α → Prop} {l : List α} {i : Nat} {v : α}
    (hl : ∀ x ∈ l, P x) (hv : P v) : ∀ x ∈ l.set i v, P x := by
  intro x hx
  rcases List.mem_or_eq_of_mem_set hx with hmem | heq
  · exact hl x hmem
  · exact heq ▸ hv

lemma xor_lt_256 {a b : Nat} (ha : a < 256) (hb : b < 256) : a ^^^ b < 256 := by
  have h : (256 : Nat) = 2 ^ 8 := by norm_num
  rw [h] at ha hb ⊢
  exact Nat.xor_lt_two_pow ha hb

lemma shiftRight_one_lt {a : Nat} (ha : a < 256) : a >>> 1 < 256 := by
  have h : a >>> 1 ≤ a := by
    rw [Nat.shiftRight_eq_div_pow]
    exact Nat.div_le_self a (2 ^ 1)
  omega

lemma read_port_inv (f : Nat → Nat) (s : CPUState) (p : Nat)
    (hb : bytesOK s) (hs : screenOK s) :
    (read_port f s p).1 < 256 ∧ bytesOK (read_port f s p).2 ∧
      screenOK (read_port f s p).2 := by
  unfold read_port
  dsimp only
  split_ifs
  · exact ⟨getD_prop _ _ (by norm_num) (getD_prop _ _ (by simp) hs _) _, hb, hs⟩
  · exact ⟨Nat.mod_lt _ (by norm_num), ⟨hb.1, hb.2⟩, hs⟩
  · exact ⟨by norm_num, hb, hs⟩
  · exact ⟨by norm_num, hb, hs⟩

lemma write_port_inv (s : CPUState) (p v : Nat)
    (hb : bytesOK s) (hs : screenOK s) :
    bytesOK (write_port s p v) ∧ screenOK (write_port s p v) := by
  refine ⟨⟨?_, ?_⟩, ?_⟩
  · rw [(write_port_frame s p v).1]
    exact hb.1
  · rw [(write_port_frame s p v).2.1]
    exact hb.2
  · unfold write_port
    dsimp only
    split_ifs <;> try exact hs
    all_goals
      exact mem_set_prop hs
        (mem_set_prop (getD_prop _ _ (by simp) hs _) (by norm_num))

lemma dispatch_inv (f : Nat → Nat) (s : CPUState) (w : Nat) (n : Nat)
    (hb : bytesOK s) (hs : screenOK s) :
    bytesOK (dispatch f s (decode w) n).1 ∧
      screenOK (dispatch f s (decode w) n).1 := by
  have hreg : ∀ i, s.registers.getD i 0 < 256 := getD_prop _ _ (by norm_num) hb.1
  have hmem : ∀ i, s.memory.getD i 0 < 256 := getD_prop _ _ (by norm_num) hb.2
  unfold dispatch
  split
  · -- ADD
    refine ⟨⟨?_, hb.2⟩, hs⟩
    dsimp only
    split_ifs
    · exact mem_set_prop hb.1 (Nat.mod_lt _ (by norm_num))
    · exact hb.1
  · -- SUB
    refine ⟨⟨?_, hb.2⟩, hs⟩
    dsimp only
    split_ifs
    · exact mem_set_prop hb.1 (emod256_toNat_lt _)
    · exact hb.1
  · -- NOR
    refine ⟨⟨?_, hb.2⟩, hs⟩
    dsimp only
    split_ifs
    · exact mem_set_prop hb.1 (by omega)
    · exact hb.1
  · -- AND
    refine ⟨⟨?_, hb.2⟩, hs⟩
    dsimp only
    split_ifs
    · exact mem_set_prop hb.1 (lt_of_le_of_lt Nat.and_le_left (hreg _))
    · exact hb.1
  · -- XOR
    refine ⟨⟨?_, hb.2⟩, hs⟩
    dsimp only
    split_ifs
    · exact mem_set_prop hb.1 (xor_lt_256 (hreg _) (hreg _))
    · exact hb.1
  · -- RSH
    refine ⟨⟨?_, hb.2⟩, hs⟩
    dsimp only
    split_ifs
    · exact mem_set_prop hb.1 (shiftRight_one_lt (hreg _))
    · exact hb.1
  · -- LDI
    refine ⟨⟨?_, hb.2⟩, hs⟩
    dsimp only
    have h8 : (decode w).imm8 < 256 := by
      have hle : w &&& 255 ≤ 255 := Nat.and_le_right
      have heq : (decode w).imm8 = w &&& 255 := rfl
      omega
    split_ifs
    · exact mem_set_prop hb.1 h8
    · exact hb.1
  · -- ADI
    refine ⟨⟨?_, hb.2⟩, hs⟩
    dsimp only
    split_ifs
    · exact mem_set_prop hb.1 (emod256_toNat_lt _)
    · exact hb.1
  · -- JMP
    exact ⟨hb, hs⟩
  · -- BRH
    exact ⟨hb, hs⟩
  · -- CAL
    split_ifs
    · exact ⟨⟨hb.1, hb.2⟩, hs⟩
    · exact ⟨hb, hs⟩
  · -- RET
    split
    · exact ⟨⟨hb.1, hb.2⟩, hs⟩
    · exact ⟨hb, hs⟩
  · -- LOD
    dsimp only
    split_ifs
    · exact ⟨⟨mem_set_prop (read_port_inv f s _ hb hs).2.1.1
          (read_port_inv f s _ hb hs).1, (read_port_inv f s _ hb hs).2.1.2⟩,
        (read_port_inv f s _ hb hs).2.2⟩
    · exact ⟨⟨mem_set_prop hb.1 (hmem _), hb.2⟩, hs⟩
    · exact ⟨⟨(read_port_inv f s _ hb hs).2.1.1, (read_port_inv f s _ hb hs).2.1.2⟩,
        (read_port_inv f s _ hb hs).2.2⟩
    · exact ⟨⟨hb.1, hb.2⟩, hs⟩
  · -- STR
    dsimp only
    split_ifs
    · exact write_port_inv s _ _ hb hs
    · exact ⟨⟨hb.1, mem_set_prop hb.2 (hreg _)⟩, hs⟩
  · -- NOP and unreachable opcodes
    exact ⟨hb, hs⟩

lemma read_port_rng_free (f g : Nat → Nat) (s : CPUState) (p : Nat)
    (h240 : 240 ≤ p) (hne : p ≠ 254) : read_port f s p = read_port g s p := by
  unfold read_port
  dsimp only
  split_ifs <;> first | rfl | (exfalso; omega)

lemma execute_one_rng_free (f g : Nat → Nat) (s : CPUState)
    (h : consultsRng s = false) : execute_one f s = execute_one g s := by
  unfold execute_one
  split
  · rfl
  · rename_i hguard
    unfold consultsRng at h
    rw [if_neg hguard] at h
    dsimp only at h
    rw [decide_eq_false_iff_not] at h
    unfold execInstr
    dsimp only
    split_ifs with hop1
    · rfl
    · suffices hd : dispatch f (zeroR0 s) (decode (s.program.getD s.pc 0)) ((zeroR0 s).pc + 1) =
          dispatch g (zeroR0 s) (decode (s.program.getD s.pc 0)) ((zeroR0 s).pc + 1) by
        rw [hd]
      unfold dispatch
      split
      all_goals try rfl
      rename_i hop14
      dsimp only
      simp only [zeroR0]
      have haddr : ((((s.registers.set 0 0).getD
          (decode (s.program.getD s.pc 0)).reg_b 0 : Int) +
          (decode (s.program.getD s.pc 0)).offset) % 256).toNat ≠ 254 :=
        fun hc => h ⟨hop14, hc⟩
      by_cases h240 : 240 ≤ ((((s.registers.set 0 0).getD
          (decode (s.program.getD s.pc 0)).reg_b 0 : Int) +
          (decode (s.program.getD s.pc 0)).offset) % 256).toNat
      · rw [if_pos h240, if_pos h240, read_port_rng_free f g _ _ h240 haddr]
      · rw [if_neg h240, if_neg h240]

lemma dispatch_flags_frame (f : Nat → Nat) (s : CPUState) (d : Decoded) (n : Nat)
    (h : d.opcode = 0 ∨ d.opcode = 8 ∨ d.opcode = 10 ∨ d.opcode = 11 ∨
      d.opcode = 12 ∨ d.opcode = 13 ∨ d.opcode = 14 ∨ d.opcode = 15) :
    (dispatch f s d n).1.zero_flag = s.zero_flag ∧
    (dispatch f s d n).1.carry_flag = s.carry_flag := by
  unfold dispatch
  split
  all_goals try exact ⟨rfl, rfl⟩
  all_goals try (exact absurd h (by omega))
  all_goals try dsimp only
  all_goals try (split <;> exact ⟨rfl, rfl⟩)
  all_goals split_ifs <;> simp [read_port_frame, write_port_frame]

lemma dispatch_carry_frame (f : Nat → Nat) (s : CPUState) (d : Decoded) (n : Nat)
    (h : d.opcode = 4 ∨ d.opcode = 5 ∨ d.opcode = 6) :
    (dispatch f s d n).1.carry_flag = s.carry_flag := by
  unfold dispatch
  split
  all_goals try exact rfl
  all_goals exact absurd h (by omega)

/-! ### Claim theorems -/

/-- Claim C1, counterexample: after running `CAL 3; HLT; HLT; LDI r1, 42; RET`
to the halt, the instruction count is not 4 — `execute_one` returns from the
HLT arm before `instruction_count += 1`, so the halting HLT step is not
counted. -/
theorem c1_count_not_four :
    ¬ ((run zeroStream 10000 (initState progCall)).1.instruction_count = 4) := by
  decide

/-- Claim C1 (amended): running `CAL 3; HLT; HLT; LDI r1, 42; RET` loaded at 0
until halt leaves r1 = 42, PC = 1, an empty call stack, a halted core, and an
instruction count of exactly 3 — the halting HLT step is not counted as a
retired instruction. -/
theorem c1_call_return_scenario :
    (run zeroStream 10000 (initState progCall)).1.registers.getD 1 0 = 42 ∧
    (run zeroStream 10000 (initState progCall)).1.pc = 1 ∧
    (run zeroStream 10000 (initState progCall)).1.call_stack = [] ∧
    (run zeroStream 10000 (initState progCall)).1.halted = true ∧
    (run zeroStream 10000 (initState progCall)).1.instruction_count = 3 := by
  decide

/-- Claim C2, failing input: the `.mc` loader accepts the 1024-word program
`JMP 1023; NOP × 1023` (all words are 16-bit), and two steps later the core
has committed PC = 1024, violating "after every step, PC < 1024" exactly at
the fall-through successor of address 1023. -/
theorem c2_pc_reaches_1024 :
    (∀ w ∈ progOverflowPc, w < 65536) ∧
    (stepN zeroStream 2 (initState progOverflowPc)).pc = 1024 := by
  constructor
  · intro w hw
    simp only [progOverflowPc, List.mem_cons, List.mem_replicate] at hw
    rcases hw with h | ⟨-, h⟩ <;> omega
  · decide

/-- Claim C3, counterexample: with the loop `JMP 0`, `run(2)` retires two
steps; a second `run(2)` retires zero further steps although the core has not
halted, because the budget is checked against the cumulative instruction
counter — the later call does not get a fresh budget of 2 steps. -/
theorem c3_no_fresh_budget :
    ¬ (((run zeroStream 2 (run zeroStream 2 (initState progLoop)).1).1.instruction_count =
          (run zeroStream 2 (initState progLoop)).1.instruction_count + 2) ∨
        (run zeroStream 2 (run zeroStream 2 (initState progLoop)).1).1.halted = true) := by
  decide

/-- Claim C3 (amended): `run(m)` repeatedly invokes `execute_one` until it
returns false or the CUMULATIVE instruction counter reaches m; the budget
report is issued iff the final counter is ≥ m; a call whose starting counter
already reached m performs no steps at all (the budget is not per-call); and
every run ends either halted or with the counter at ≥ m. -/
theorem c3_run_cumulative_budget (f : Nat → Nat) (m : Nat) (s : CPUState) :
    ((run f m s).2 = true ↔ m ≤ (run f m s).1.instruction_count) ∧
    (m ≤ s.instruction_count → (run f m s).1 = s) ∧
    ((run f m s).1.halted = true ∨ m ≤ (run f m s).1.instruction_count) := by
  refine ⟨by simp [run], ?_, ?_⟩
  · intro h
    have h0 : m - s.instruction_count = 0 := by omega
    simp [run, h0, runLoop]
  · exact runLoop_post f m _ s le_rfl

/-- Witness for `c3_run_cumulative_budget` at a concrete input. -/
theorem c3_run_cumulative_budget_witness :
    2 ≤ (run zeroStream 2 (initState progLoop)).1.instruction_count ∧
    (run zeroStream 2 (run zeroStream 2 (initState progLoop)).1).1 =
      (run zeroStream 2 (initState progLoop)).1 :=
  ⟨by decide,
   (c3_run_cumulative_budget zeroStream 2 (run zeroStream 2 (initState progLoop)).1).2.1
     (by decide)⟩

/-- Claim C7: port-7 writes append per the 30-symbol table for v ≤ 29, the
ASCII glyph for v ∈ [32, 126], and the question mark otherwise; writing 8, 5,
12, 12, 15 appends the characters of "hello". -/
theorem c7_write_char (s : CPUState) (v : Nat) :
    (v ≤ 29 →
      (write_port s 247 v).char_buffer = s.char_buffer ++ [batpuChars.getD v ' ']) ∧
    (32 ≤ v → v ≤ 126 →
      (write_port s 247 v).char_buffer = s.char_buffer ++ [Char.ofNat v]) ∧
    ((v = 30 ∨ v = 31 ∨ 126 < v) →
      (write_port s 247 v).char_buffer = s.char_buffer ++ ['?']) ∧
    (write_port (write_port (write_port (write_port (write_port s 247 8)
        247 5) 247 12) 247 12) 247 15).char_buffer =
      s.char_buffer ++ ['h', 'e', 'l', 'l', 'o'] := by
  refine ⟨?_, ?_, ?_, ?_⟩
  · intro hv
    have hlt : v < batpuChars.length := by simp [batpuChars]; omega
    simp [write_port, hlt]
  · intro h1 h2
    have hge : ¬ v < batpuChars.length := by simp [batpuChars]; omega
    simp [write_port, hge, h1, h2]
  · intro hv
    have hge : ¬ v < batpuChars.length := by simp [batpuChars]; omega
    have hout : ¬ (32 ≤ v ∧ v ≤ 126) := by omega
    simp [write_port, hge, hout]
  · simp [write_port, batpuChars, List.append_assoc]

/-- Witness for `c7_write_char` at concrete inputs. -/
theorem c7_write_char_witness :
    (write_port (initState []) 247 3).char_buffer =
      (initState []).char_buffer ++ [batpuChars.getD 3 ' '] ∧
    (write_port (initState []) 247 65).char_buffer =
      (initState []).char_buffer ++ [Char.ofNat 65] ∧
    (write_port (initState []) 247 200).char_buffer =
      (initState []).char_buffer ++ ['?'] :=
  ⟨(c7_write_char (initState []) 3).1 (by decide),
   (c7_write_char (initState []) 65).2.1 (by decide) (by decide),
   (c7_write_char (initState []) 200).2.2.1 (by decide)⟩

/-- Claim C4: `SUB Ra, Rb, Rc` on byte-valued registers sets C iff Ra ≥ Rb
(no borrow), writes (Ra − Rb) mod 256 to Rc (for a writable Rc), and sets Z
iff that 8-bit result is zero; concretely, `LDI r1, 10; LDI r2, 20;
SUB r1, r2, r3; HLT` halts with r3 = 246, Z = false, C = false. -/
theorem c4_sub_borrow (f : Nat → Nat) (s : CPUState) (w : Nat)
    (h0 : s.registers.getD 0 0 = 0)
    (hop : (decode w).opcode = 3)
    (_ha : s.registers.getD (decode w).reg_a 0 < 256)
    (hb : s.registers.getD (decode w).reg_b 0 < 256) :
    ((execInstr f s w).1.carry_flag = true ↔
        s.registers.getD (decode w).reg_b 0 ≤ s.registers.getD (decode w).reg_a 0) ∧
    ((execInstr f s w).1.zero_flag = true ↔
        (256 + s.registers.getD (decode w).reg_a 0 -
          s.registers.getD (decode w).reg_b 0) % 256 = 0) ∧
    ((decode w).reg_c ≠ 0 → (decode w).reg_c < s.registers.length →
        (execInstr f s w).1.registers.getD ((decode w).reg_c) 0 =
          (256 + s.registers.getD (decode w).reg_a 0 -
            s.registers.getD (decode w).reg_b 0) % 256) ∧
    ((run zeroStream 10000 (initState progSub)).1.registers.getD 3 0 = 246 ∧
     (run zeroStream 10000 (initState progSub)).1.zero_flag = false ∧
     (run zeroStream 10000 (initState progSub)).1.carry_flag = false) := by
  obtain ⟨hc, hz, hr, -⟩ := execInstr_proj f s w (by omega)
  rw [zeroR0_of_getD h0] at hc hz hr
  unfold dispatch at hc hz hr
  rw [hop] at hc hz hr
  dsimp only at hc hz hr
  refine ⟨?_, ?_, ?_, by decide, by decide, by decide⟩
  · rw [hc]
    simp only [decide_eq_true_eq]
    omega
  · rw [hz]
    simp only [decide_eq_true_eq]
    rw [sub_emod_toNat _ _ hb]
  · intro hcne hclen
    rw [hr, getD_set_ne (by omega), if_pos hcne, getD_set_self hclen,
      sub_emod_toNat _ _ hb]

/-- Witness for `c4_sub_borrow` at a concrete input: the state after the two
LDIs of scenario S2, about to execute `SUB r1, r2, r3`. -/
theorem c4_sub_borrow_witness :
    ((stepN zeroStream 2 (initState progSub)).registers.getD 0 0 = 0 ∧
     (decode 12579).opcode = 3 ∧
     (stepN zeroStream 2 (initState progSub)).registers.getD (decode 12579).reg_a 0 < 256 ∧
     (stepN zeroStream 2 (initState progSub)).registers.getD (decode 12579).reg_b 0 < 256) ∧
    ((execInstr zeroStream (stepN zeroStream 2 (initState progSub)) 12579).1.carry_flag = true ↔
      (stepN zeroStream 2 (initState progSub)).registers.getD (decode 12579).reg_b 0 ≤
        (stepN zeroStream 2 (initState progSub)).registers.getD (decode 12579).reg_a 0) :=
  ⟨⟨by decide, by decide, by decide, by decide⟩,
   (c4_sub_borrow zeroStream (stepN zeroStream 2 (initState progSub)) 12579
      (by decide) (by decide) (by decide) (by decide)).1⟩

/-- Claim C5: register-zero discipline.  Provided register 0 reads as 0 (the
construction/reset invariant), it still reads as 0 after every step; an
architectural write whose destination field is register 0 (ALU result via Rc,
LDI/ADI via Ra, LOD via Ra) leaves the register file unchanged; and the flag
updates of each flag-setting opcode take effect from the source operands
regardless of the destination, exactly as if it were writable. -/
theorem c5_register_zero_discipline (f : Nat → Nat) (s : CPUState) (w : Nat)
    (h0 : s.registers.getD 0 0 = 0) :
    ((execute_one f s).1.registers.getD 0 0 = 0) ∧
    ((decode w).opcode ∈ ([2, 3, 4, 5, 6, 7] : List Nat) → (decode w).reg_c = 0 →
      (execInstr f s w).1.registers = s.registers) ∧
    ((decode w).opcode ∈ ([8, 9] : List Nat) → (decode w).reg_a = 0 →
      (execInstr f s w).1.registers = s.registers) ∧
    ((decode w).opcode = 14 → (decode w).reg_a = 0 →
      (execInstr f s w).1.registers = s.registers) ∧
    ((decode w).opcode = 2 →
      (execInstr f s w).1.carry_flag =
        decide (255 < s.registers.getD (decode w).reg_a 0 +
          s.registers.getD (decode w).reg_b 0) ∧
      (execInstr f s w).1.zero_flag =
        decide ((s.registers.getD (decode w).reg_a 0 +
          s.registers.getD (decode w).reg_b 0) % 256 = 0)) ∧
    ((decode w).opcode = 3 →
      (execInstr f s w).1.carry_flag =
        decide (s.registers.getD (decode w).reg_b 0 ≤
          s.registers.getD (decode w).reg_a 0) ∧
      (execInstr f s w).1.zero_flag =
        decide ((((s.registers.getD (decode w).reg_a 0 : Int) -
          s.registers.getD (decode w).reg_b 0) % 256).toNat = 0)) ∧
    ((decode w).opcode = 4 →
      (execInstr f s w).1.zero_flag =
        decide (255 - ((s.registers.getD (decode w).reg_a 0 |||
          s.registers.getD (decode w).reg_b 0) % 256) = 0)) ∧
    ((decode w).opcode = 5 →
      (execInstr f s w).1.zero_flag =
        decide (s.registers.getD (decode w).reg_a 0 &&&
          s.registers.getD (decode w).reg_b 0 = 0)) ∧
    ((decode w).opcode = 6 →
      (execInstr f s w).1.zero_flag =
        decide (s.registers.getD (decode w).reg_a 0 ^^^
          s.registers.getD (decode w).reg_b 0 = 0)) ∧
    ((decode w).opcode = 7 →
      (execInstr f s w).1.carry_flag =
        decide (s.registers.getD (decode w).reg_a 0 &&& 1 = 1) ∧
      (execInstr f s w).1.zero_flag =
        decide (s.registers.getD (decode w).reg_a 0 >>> 1 = 0)) ∧
    ((decode w).opcode = 9 →
      (execInstr f s w).1.carry_flag =
        decide (255 < (s.registers.getD (decode w).reg_a 0 : Int) +
            (decode w).imm8_signed ∨
          (s.registers.getD (decode w).reg_a 0 : Int) + (decode w).imm8_signed < 0) ∧
      (execInstr f s w).1.zero_flag =
        decide ((((s.registers.getD (decode w).reg_a 0 : Int) +
          (decode w).imm8_signed) % 256).toNat = 0)) := by
  refine ⟨?_, ?_, ?_, ?_, ?_, ?_, ?_, ?_, ?_, ?_, ?_⟩
  · unfold execute_one
    split
    · exact h0
    · by_cases hop1 : (decode (s.program.getD s.pc 0)).opcode = 1
      · simp only [execInstr]
        rw [if_pos hop1]
        exact getD_set_zero _
      · obtain ⟨-, -, hr, -⟩ := execInstr_proj f s (s.program.getD s.pc 0) hop1
        rw [hr]
        exact getD_set_zero _
  · intro hmem hc0
    simp only [List.mem_cons, List.not_mem_nil, or_false] at hmem
    obtain ⟨-, -, hr, -⟩ := execInstr_proj f s w (by omega)
    rw [zeroR0_of_getD h0] at hr
    unfold dispatch at hr
    rcases hmem with hop|hop|hop|hop|hop|hop <;>
      (rw [hop] at hr; dsimp only at hr;
       rw [if_neg (by omega), set_zero_of_getD h0] at hr; exact hr)
  · intro hmem ha0
    simp only [List.mem_cons, List.not_mem_nil, or_false] at hmem
    obtain ⟨-, -, hr, -⟩ := execInstr_proj f s w (by omega)
    rw [zeroR0_of_getD h0] at hr
    unfold dispatch at hr
    rcases hmem with hop|hop <;>
      (rw [hop] at hr; dsimp only at hr;
       rw [if_neg (by omega), set_zero_of_getD h0] at hr; exact hr)
  · intro hop ha0
    obtain ⟨-, -, hr, -⟩ := execInstr_proj f s w (by omega)
    rw [zeroR0_of_getD h0] at hr
    unfold dispatch at hr
    rw [hop] at hr
    dsimp only at hr
    rw [if_neg (by omega)] at hr
    by_cases h240 : 240 ≤ ((((s.registers.getD (decode w).reg_b 0 : Int) +
        (decode w).offset) % 256)).toNat
    · rw [if_pos h240, (read_port_frame f s _).1, set_zero_of_getD h0] at hr
      exact hr
    · rw [if_neg h240] at hr
      dsimp only at hr
      rw [set_zero_of_getD h0] at hr
      exact hr
  · intro hop
    obtain ⟨hc, hz, -, -⟩ := execInstr_proj f s w (by omega)
    rw [zeroR0_of_getD h0] at hc hz
    unfold dispatch at hc hz
    rw [hop] at hc hz
    dsimp only at hc hz
    exact ⟨hc, hz⟩
  · intro hop
    obtain ⟨hc, hz, -, -⟩ := execInstr_proj f s w (by omega)
    rw [zeroR0_of_getD h0] at hc hz
    unfold dispatch at hc hz
    rw [hop] at hc hz
    dsimp only at hc hz
    refine ⟨?_, hz⟩
    rw [hc, decide_eq_decide]
    omega
  · intro hop
    obtain ⟨-, hz, -, -⟩ := execInstr_proj f s w (by omega)
    rw [zeroR0_of_getD h0] at hz
    unfold dispatch at hz
    rw [hop] at hz
    dsimp only at hz
    exact hz
  · intro hop
    obtain ⟨-, hz, -, -⟩ := execInstr_proj f s w (by omega)
    rw [zeroR0_of_getD h0] at hz
    unfold dispatch at hz
    rw [hop] at hz
    dsimp only at hz
    exact hz
  · intro hop
    obtain ⟨-, hz, -, -⟩ := execInstr_proj f s w (by omega)
    rw [zeroR0_of_getD h0] at hz
    unfold dispatch at hz
    rw [hop] at hz
    dsimp only at hz
    exact hz
  · intro hop
    obtain ⟨hc, hz, -, -⟩ := execInstr_proj f s w (by omega)
    rw [zeroR0_of_getD h0] at hc hz
    unfold dispatch at hc hz
    rw [hop] at hc hz
    dsimp only at hc hz
    exact ⟨hc, hz⟩
  · intro hop
    obtain ⟨hc, hz, -, -⟩ := execInstr_proj f s w (by omega)
    rw [zeroR0_of_getD h0] at hc hz
    unfold dispatch at hc hz
    rw [hop] at hc hz
    dsimp only at hc hz
    exact ⟨hc, hz⟩

/-- Witness for `c5_register_zero_discipline` at a concrete input: the
instruction `SUB r1, r2, r0` (destination register 0). -/
theorem c5_register_zero_discipline_witness :
    (initState [4096]).registers.getD 0 0 = 0 ∧
    (execute_one zeroStream (initState [4096])).1.registers.getD 0 0 = 0 ∧
    ((decode 12576).opcode ∈ ([2, 3, 4, 5, 6, 7] : List Nat) ∧
      (decode 12576).reg_c = 0 ∧
      (execInstr zeroStream (initState [4096]) 12576).1.registers =
        (initState [4096]).registers) :=
  ⟨by decide,
   (c5_register_zero_discipline zeroStream (initState [4096]) 12576 (by decide)).1,
   ⟨by decide, by decide,
    (c5_register_zero_discipline zeroStream (initState [4096]) 12576
        (by decide)).2.1 (by decide) (by decide)⟩⟩

/-- Claim C6: executing LDI, JMP, BRH, CAL, RET, LOD, STR, NOP, or HLT leaves
both the zero flag and the carry flag unchanged, and NOR, AND, XOR leave the
carry flag unchanged — only the §4.2 opcodes update flags. -/
theorem c6_flag_frame (f : Nat → Nat) (s : CPUState) :
    ((decode (s.program.getD s.pc 0)).opcode ∈
        ([0, 1, 8, 10, 11, 12, 13, 14, 15] : List Nat) →
      (execute_one f s).1.zero_flag = s.zero_flag ∧
      (execute_one f s).1.carry_flag = s.carry_flag) ∧
    ((decode (s.program.getD s.pc 0)).opcode ∈ ([4, 5, 6] : List Nat) →
      (execute_one f s).1.carry_flag = s.carry_flag) := by
  constructor
  · intro hmem
    simp only [List.mem_cons, List.not_mem_nil, or_false] at hmem
    unfold execute_one
    split
    · exact ⟨rfl, rfl⟩
    · by_cases hop1 : (decode (s.program.getD s.pc 0)).opcode = 1
      · simp only [execInstr]
        rw [if_pos hop1]
        exact ⟨rfl, rfl⟩
      · obtain ⟨hcz, hcc, -, -⟩ := execInstr_proj f s _ hop1
        rw [hcz, hcc]
        exact dispatch_flags_frame f (zeroR0 s) _ _ (by omega)
  · intro hmem
    simp only [List.mem_cons, List.not_mem_nil, or_false] at hmem
    unfold execute_one
    split
    · rfl
    · obtain ⟨hcc, -, -, -⟩ := execInstr_proj f s (s.program.getD s.pc 0) (by omega)
      rw [hcc]
      exact dispatch_carry_frame f (zeroR0 s) _ _ (by omega)

/-- Witness for `c6_flag_frame` at concrete inputs: an HLT step and an
`AND r1, r2, r3` step. -/
theorem c6_flag_frame_witness :
    ((decode ((initState [4096]).program.getD (initState [4096]).pc 0)).opcode ∈
        ([0, 1, 8, 10, 11, 12, 13, 14, 15] : List Nat) ∧
      (execute_one zeroStream (initState [4096])).1.zero_flag =
        (initState [4096]).zero_flag) ∧
    ((decode ((initState [20995]).program.getD (initState [20995]).pc 0)).opcode ∈
        ([4, 5, 6] : List Nat) ∧
      (execute_one zeroStream (initState [20995])).1.carry_flag =
        (initState [20995]).carry_flag) :=
  ⟨⟨by decide, ((c6_flag_frame zeroStream (initState [4096])).1 (by decide)).1⟩,
   ⟨by decide, (c6_flag_frame zeroStream (initState [20995])).2 (by decide)⟩⟩

/-- Claim C9: the rng port is the only source of nondeterminism.  If a run of
n steps never executes a LOD whose effective address is 254, the entire final
state — registers, memory, PC, flags, framebuffer, character buffer, number
display — is identical for every injected random byte stream; in this
embedding the rng is an explicit injectable stream `f`, which makes runs
reproducible by construction. -/
theorem c9_rng_only_nondeterminism (f g : Nat → Nat) (n : Nat) (s : CPUState)
    (h : ∀ k < n, consultsRng (stepN f k s) = false) :
    stepN f n s = stepN g n s := by
  induction n generalizing s with
  | zero => rfl
  | succ m ih =>
    have h0 : consultsRng s = false := h 0 (Nat.succ_pos m)
    have hstep : execute_one f s = execute_one g s := execute_one_rng_free f g s h0
    show stepN f m (execute_one f s).1 = stepN g m (execute_one g s).1
    rw [← hstep]
    exact ih ((execute_one f s).1) (fun k hk => h (k + 1) (by omega))

/-- Witness for `c9_rng_only_nondeterminism`: a two-step run of the program
`HLT` agrees under two different byte streams. -/
theorem c9_rng_only_nondeterminism_witness :
    (∀ k < 2, consultsRng (stepN zeroStream k (initState [4096])) = false) ∧
    stepN zeroStream 2 (initState [4096]) = stepN (fun k => k + 7) 2 (initState [4096]) :=
  ⟨by decide,
   c9_rng_only_nondeterminism zeroStream (fun k => k + 7) 2 (initState [4096]) (by decide)⟩

/-- Claim C8: `reset` preserves the loaded program image and zeroes the
registers, data memory, PC, flags, call stack, halted flag, instruction
counter, framebuffer, cursor, character buffer, and number display/mode. -/
theorem c8_reset_preserves_program (s : CPUState) :
    (reset s).program = s.program ∧
    (reset s).registers = List.replicate 16 0 ∧
    (reset s).memory = List.replicate 256 0 ∧
    (reset s).pc = 0 ∧
    (reset s).zero_flag = false ∧
    (reset s).carry_flag = false ∧
    (reset s).call_stack = [] ∧
    (reset s).halted = false ∧
    (reset s).instruction_count = 0 ∧
    (reset s).screen = List.replicate 32 (List.replicate 32 0) ∧
    (reset s).pixel_x = 0 ∧
    (reset s).pixel_y = 0 ∧
    (reset s).char_buffer = [] ∧
    (reset s).number_display = none ∧
    (reset s).signed_mode = false :=
  ⟨rfl, rfl, rfl, rfl, rfl, rfl, rfl, rfl, rfl, rfl, rfl, rfl, rfl, rfl, rfl⟩

/-- Claim C10: every register cell and every data-memory cell holds a value
in [0, 255] at construction/load, after `reset`, and after every step from a
state satisfying the invariant (with the auxiliary framebuffer-cell bound that
makes the LOD-from-`load_pixel` case go through). -/
theorem c10_byte_invariant :
    (∀ prog, bytesOK (initState prog) ∧ screenOK (initState prog)) ∧
    (∀ s, bytesOK (reset s) ∧ screenOK (reset s)) ∧
    (∀ (f : Nat → Nat) s, bytesOK s → screenOK s →
      bytesOK (execute_one f s).1 ∧ screenOK (execute_one f s).1) := by
  refine ⟨?_, ?_, ?_⟩
  · intro prog
    refine ⟨⟨?_, ?_⟩, ?_⟩ <;>
      (intro x hx
       simp only [initState, List.mem_replicate] at hx)
    · omega
    · omega
    · intro p hp
      rw [hx.2] at hp
      simp only [List.mem_replicate] at hp
      omega
  · intro s
    refine ⟨⟨?_, ?_⟩, ?_⟩ <;>
      (intro x hx
       simp only [reset, List.mem_replicate] at hx)
    · omega
    · omega
    · intro p hp
      rw [hx.2] at hp
      simp only [List.mem_replicate] at hp
      omega
  · intro f s hb hs
    unfold execute_one
    split
    · exact ⟨hb, hs⟩
    · unfold execInstr
      dsimp only
      split_ifs
      · exact ⟨⟨mem_set_prop hb.1 (by norm_num), hb.2⟩, hs⟩
      · have hd := dispatch_inv f (zeroR0 s) (s.program.getD s.pc 0)
          ((zeroR0 s).pc + 1) ⟨mem_set_prop hb.1 (by norm_num), hb.2⟩ hs
        exact ⟨⟨mem_set_prop hd.1.1 (by norm_num), hd.1.2⟩, hd.2⟩

/-- Witness for `c10_byte_invariant` at a concrete input. -/
theorem c10_byte_invariant_witness :
    (bytesOK (initState progLoop) ∧ screenOK (initState progLoop)) ∧
    bytesOK (execute_one zeroStream (initState progLoop)).1 :=
  ⟨⟨by unfold bytesOK; exact ⟨by decide, by decide⟩, by unfold screenOK; decide⟩,
   (c10_byte_invariant.2.2 zeroStream (initState progLoop)
      (by unfold bytesOK; exact ⟨by decide, by decide⟩)
      (by unfold screenOK; decide)).1⟩

end BatPU2
